import Mathlib

/-!
Verification of the `spherov2` toy session runtime (`spherov2/toy/__init__.py`)
and the demo script (`spherov2/test/BOLT_roll_test.py`).

The Python source is shallowly embedded: bytes are natural numbers, byte
strings are lists, the mutable maps (`__waiting`, `__listeners`) are total
functions with the `defaultdict` default, and the side-effecting loops are
functions producing explicit event traces.
-/

namespace Spherov2

/-- A single byte of a payload.  The chunking logic never inspects byte
values, so plain naturals suffice. -/
abbrev Byte := Nat

/-- A decoded protocol packet as the runtime sees it: its correlation id
(`packet.id`) and the bytes `packet.build()` serializes to.  The codec
itself is an external dependency. -/
structure Packet where
  pid : Nat
  built : List Byte
  deriving DecidableEq

/-! ## The transmit loop (`Toy.__process_packet`)

```python
def __process_packet(self):
    while self.__adapter is not None:
        payload = self.__packet_queue.get()
        if payload is None:
            break
        while payload:
            self.__adapter.write(self._send_uuid, payload[:20])
            payload = payload[20:]
        time.sleep(self.toy_type.cmd_safe_interval)
```

The loop is the sole consumer of `__packet_queue` and the sole writer to the
adapter after the handshake, so its observable behaviour on a sequence of
queued items is the trace of `write` and `sleep` calls below. -/

/-- An observable action of the transmit loop: an adapter write of one chunk
on the send channel, or the pacing sleep. -/
inductive TxEvent where
  | write (chunk : List Byte)
  | sleep (interval : ℚ)
  deriving DecidableEq

/-- The inner `while payload:` loop: emit `payload[:20]` and continue with
`payload[20:]` until the payload is exhausted. -/
def writeChunks (payload : List Byte) : List TxEvent :=
  if payload = [] then []
  else TxEvent.write (payload.take 20) :: writeChunks (payload.drop 20)
termination_by payload.length
decreasing_by
  have hl : 0 < payload.length := List.length_pos.mpr (by assumption)
  simp only [List.length_drop]
  omega

/-- The consecutive ≤20-byte chunks the inner loop writes, as a list of
byte strings (`payload[:20]`, then the chunks of `payload[20:]`). -/
def chunks (payload : List Byte) : List (List Byte) :=
  if payload = [] then []
  else payload.take 20 :: chunks (payload.drop 20)
termination_by payload.length
decreasing_by
  have hl : 0 < payload.length := List.length_pos.mpr (by assumption)
  simp only [List.length_drop]
  omega

/-- The outer `while` loop of `__process_packet`, run over the successive
items taken from the outbound queue (`none` is the stop sentinel put by
`__exit__`).  After the chunks of a payload are written it sleeps for the
toy type's `cmd_safe_interval` and only then takes the next item. -/
def processQueue (interval : ℚ) : List (Option (List Byte)) → List TxEvent
  | [] => []
  | none :: _ => []
  | some payload :: rest =>
      writeChunks payload ++ TxEvent.sleep interval :: processQueue interval rest

/-- The adapter writes occurring in a trace, in order. -/
def writesOf (tr : List TxEvent) : List (List Byte) :=
  tr.filterMap fun e =>
    match e with
    | TxEvent.write c => some c
    | TxEvent.sleep _ => none

/-- The pacing sleeps occurring in a trace, in order. -/
def sleepsOf (tr : List TxEvent) : List ℚ :=
  tr.filterMap fun e =>
    match e with
    | TxEvent.write _ => none
    | TxEvent.sleep i => some i

theorem chunks_nil : chunks [] = [] := by
  rw [chunks]
  simp

theorem chunks_cons_of_ne (p : List Byte) (h : p ≠ []) :
    chunks p = p.take 20 :: chunks (p.drop 20) := by
  rw [chunks]
  simp [h]

theorem writeChunks_eq_map (p : List Byte) :
    writeChunks p = (chunks p).map TxEvent.write := by
  induction p using writeChunks.induct with
  | case1 => rw [writeChunks, chunks]; simp
  | case2 p h ih =>
      rw [writeChunks, chunks]
      simp [h, ih]

theorem chunks_length_le (p : List Byte) :
    ∀ c ∈ chunks p, c.length ≤ 20 := by
  induction p using chunks.induct with
  | case1 => rw [chunks]; simp
  | case2 p h ih =>
      rw [chunks]
      simp only [h, if_neg, ite_false]
      intro c hc
      rcases List.mem_cons.mp hc with rfl | hc
      · simp
      · exact ih c hc

theorem chunks_join (p : List Byte) : (chunks p).flatten = p := by
  induction p using chunks.induct with
  | case1 => rw [chunks]; simp
  | case2 p h ih =>
      rw [chunks]
      simp [h, ih]

theorem writesOf_append (a b : List TxEvent) :
    writesOf (a ++ b) = writesOf a ++ writesOf b := by
  simp [writesOf]

theorem sleepsOf_append (a b : List TxEvent) :
    sleepsOf (a ++ b) = sleepsOf a ++ sleepsOf b := by
  simp [sleepsOf]

theorem writesOf_writeChunks (p : List Byte) :
    writesOf (writeChunks p) = chunks p := by
  rw [writeChunks_eq_map]
  induction chunks p with
  | nil => simp [writesOf]
  | cons c cs ih => simpa [writesOf] using ih

theorem sleepsOf_writeChunks (p : List Byte) :
    sleepsOf (writeChunks p) = [] := by
  rw [writeChunks_eq_map]
  induction chunks p with
  | nil => simp [sleepsOf]
  | cons c cs ih => simp [sleepsOf]

/-- Draining a queue of real payloads produces, per payload, its chunk
writes followed by exactly one pacing sleep, with the next payload only
after that sleep. -/
theorem processQueue_eq_flatten (interval : ℚ) (ps : List (List Byte)) :
    processQueue interval (ps.map some) =
      (ps.map fun p => writeChunks p ++ [TxEvent.sleep interval]).flatten := by
  induction ps with
  | nil => simp [processQueue]
  | cons p rest ih =>
      simp only [List.map_cons, processQueue, List.flatten, ih]
      simp

theorem writesOf_processQueue (interval : ℚ) (ps : List (List Byte)) :
    writesOf (processQueue interval (ps.map some)) = (ps.map chunks).flatten := by
  induction ps with
  | nil => simp [processQueue, writesOf]
  | cons p rest ih =>
      simp only [List.map_cons, processQueue]
      rw [show writeChunks p ++ TxEvent.sleep interval :: processQueue interval (rest.map some)
            = (writeChunks p ++ [TxEvent.sleep interval]) ++
                processQueue interval (rest.map some) by simp]
      rw [writesOf_append, writesOf_append, writesOf_writeChunks, ih]
      simp [writesOf]

theorem sleepsOf_processQueue (interval : ℚ) (ps : List (List Byte)) :
    sleepsOf (processQueue interval (ps.map some)) =
      List.replicate ps.length interval := by
  induction ps with
  | nil => simp [processQueue, sleepsOf]
  | cons p rest ih =>
      simp only [List.map_cons, processQueue]
      rw [show TxEvent.sleep interval :: processQueue interval (rest.map some) =
            [TxEvent.sleep interval] ++ processQueue interval (rest.map some) from rfl,
          ← List.append_assoc, sleepsOf_append, sleepsOf_append, ih,
          sleepsOf_writeChunks]
      simp [sleepsOf, List.replicate_succ]

/-! ## Request correlation (`Toy._wait_packet`, `Toy.__new_packet`)

```python
def _wait_packet(self, key, timeout=10.0, check_error=False):
    future = futures.Future()
    self.__waiting[key].put(future)
    packet = future.result(timeout)
    ...

def __new_packet(self, packet):
    key = packet.id
    queue = self.__waiting[key]
    while not queue.empty():
        queue.get().set_result(packet)
    for f in self.__listeners[key].values():
        threading.Thread(target=f, args=(packet,)).start()
```

`__waiting` is a `defaultdict(SimpleQueue)`: the map is total with an empty
queue as default.  Futures are identified by a natural number; the `results`
map records each future's single result slot. -/

/-- The correlation state: `__waiting` (key ↦ FIFO of queued future ids,
oldest first) together with the result slot of every future ever created. -/
structure WaitState where
  waiting : Nat → List Nat
  results : Nat → Option Packet

/-- The correlation state of a freshly constructed `Toy`: no waiter queued
under any key, no future resolved. -/
def initWait : WaitState :=
  { waiting := fun _ => [], results := fun _ => none }

/-- The registration step of `_wait_packet`: create a fresh future `fid` and
append it to the key's queue (`self.__waiting[key].put(future)`). -/
def waitPacketRegister (s : WaitState) (key fid : Nat) : WaitState :=
  { s with waiting := fun k => if k = key then s.waiting k ++ [fid] else s.waiting k }

/-- The state change `_wait_packet` performs when `future.result(timeout)`
raises `TimeoutError`: none at all.  The method has no cleanup handler, so
the exception propagates with the registered future still queued. -/
def waitPacketTimeout (s : WaitState) : WaitState := s

/-- The drain loop of `__new_packet`
(`while not queue.empty(): queue.get().set_result(packet)`) acting on the
futures' result slots: each dequeued future gets the packet as its result. -/
def drainAll (results : Nat → Option Packet) (q : List Nat) (p : Packet) :
    Nat → Option Packet :=
  match q with
  | [] => results
  | fid :: rest => drainAll (fun g => if g = fid then some p else results g) rest p

/-- The correlation path of `__new_packet`: every future queued under the
packet's id is dequeued and fulfilled with the packet.  (The listener
fan-out that follows touches neither the waiting map nor any future.) -/
def newPacket (s : WaitState) (p : Packet) : WaitState :=
  { waiting := fun k => if k = p.pid then [] else s.waiting k,
    results := drainAll s.results (s.waiting p.pid) p }

theorem drainAll_eq (q : List Nat) (results : Nat → Option Packet) (p : Packet)
    (fid : Nat) :
    drainAll results q p fid = if fid ∈ q then some p else results fid := by
  induction q generalizing results with
  | nil => simp [drainAll]
  | cons a rest ih =>
      rw [drainAll, ih]
      by_cases hr : fid ∈ rest
      · simp [hr]
      · by_cases ha : fid = a
        · simp [hr, ha]
        · simp [hr, ha]

/-! ## Session lifecycle (`__enter__`, `__exit__`, `_execute`)

```python
def __enter__(self):
    if self.__adapter is not None:
        raise RuntimeError('Toy already in context manager')
    self.__adapter = self.__adapter_cls(self.address)
    self.__thread = threading.Thread(target=self.__process_packet)
    try:
        ...handshake, set_callback...
        self.__thread.start()
    except:
        self.__exit__(None, None, None)
        raise
    return self

def __exit__(self, *args):
    self.__adapter.close()
    self.__adapter = None
    if self.__thread.is_alive():
        self.__packet_queue.put(None)
        self.__thread.join()
    self.__packet_queue = SimpleQueue()

def _execute(self, packet):
    if self.__adapter is None:
        raise RuntimeError('Use toys in context manager')
    self.__packet_queue.put(packet.build())
    return self._wait_packet(packet.id)
```
-/

/-- The exceptions the session lifecycle code can raise. -/
inductive PyErr where
  /-- The `RuntimeError('Toy already in context manager')` raised by `__enter__`. -/
  | alreadyOpen
  /-- The `RuntimeError('Use toys in context manager')` raised by `_execute`. -/
  | notConnected
  /-- An `AttributeError` from an attribute access on `None`
  (`None.close()`, `None.is_alive()`). -/
  | noneAttr
  deriving DecidableEq

/-- The mutable per-`Toy` state touched by the lifecycle methods.  Adapter
instances and handshake/callback effects on them are external; an adapter is
identified by a number.  The thread field records `some alive` once
`__thread` has been assigned, `none` before the first `__enter__`. -/
structure ToySession where
  adapter : Option Nat
  thread : Option Bool
  packetQueue : List (Option (List Byte))
  waiting : Nat → List Nat
  listeners : Nat → List (Nat × Nat)

/-- The state set up by `Toy.__init__`: no adapter, no thread, empty
outbound queue, empty `defaultdict` maps. -/
def initSession : ToySession :=
  { adapter := none, thread := none, packetQueue := [],
    waiting := fun _ => [], listeners := fun _ => [] }

/-- The `__enter__` method on the path where the handshake writes,
`set_callback` and the thread start succeed (their failures are external
adapter behaviour): guard against an existing adapter, then bind a fresh
adapter instance `a` and start the transmit thread. -/
def enterSession (s : ToySession) (a : Nat) : Except PyErr ToySession :=
  match s.adapter with
  | some _ => Except.error PyErr.alreadyOpen
  | none => Except.ok { s with adapter := some a, thread := some true }

/-- The `__exit__` method.  `self.__adapter.close()` raises `AttributeError`
when the adapter reference is `None`; otherwise the adapter is closed and
released, the transmit thread (if alive) is stopped via the `None` sentinel
and joined, and the queue is replaced by a fresh empty `SimpleQueue` —
whether or not the sentinel was put, the replaced queue is empty. -/
def exitSession (s : ToySession) : Except PyErr ToySession :=
  match s.adapter with
  | none => Except.error PyErr.noneAttr
  | some _ =>
      match s.thread with
      | none => Except.error PyErr.noneAttr
      | some _ =>
          Except.ok { s with adapter := none, thread := some false, packetQueue := [] }

/-- The `_execute` method up to and including the enqueue: with no adapter
bound it raises before anything is put on the queue (the returned state is
the input state); otherwise `packet.build()` is appended to the outbound
queue.  The `_wait_packet` call that follows acts on the correlation state
and is modeled by `waitPacketRegister`. -/
def executeEnqueue (s : ToySession) (p : Packet) : ToySession × Option PyErr :=
  match s.adapter with
  | none => (s, some PyErr.notConnected)
  | some _ => ({ s with packetQueue := s.packetQueue ++ [some p.built] }, none)

/-- A session opened from the initial state with adapter instance `0`. -/
def openedSession : ToySession :=
  { initSession with adapter := some 0, thread := some true }

/-- The state after closing `openedSession`. -/
def closedSession : ToySession :=
  { openedSession with adapter := none, thread := some false, packetQueue := [] }

/-! ## Capability introspection (`Toy.implements`)

```python
@classmethod
def implements(cls, method, with_target=False):
    m = cls.__dict__.get(method.__name__, None)
    if m is method:
        return with_target == cls._require_target
    if isinstance(m, functools.partialmethod):
        return m.func is method and (
                ('proc' in m.keywords and not with_target) or with_target == cls._require_target)
    return False
```

Function objects are compared by identity (`is`); they are modeled by
numeric identities.  A `functools.partialmethod` declaration carries the
wrapped function and its keyword names. -/

/-- A value found in a class's own `__dict__` under a method name. -/
inductive ClassAttr where
  /-- A plain function object, by identity. -/
  | plain (fnId : Nat)
  /-- A `functools.partialmethod` wrapper: the wrapped function's identity
  and the names of the bound keyword arguments. -/
  | partialMethod (funcId : Nat) (keywords : List String)
  /-- Any other attribute value. -/
  | other (objId : Nat)
  deriving DecidableEq

/-- The parts of a toy class `implements` consults: its own `__dict__`
(inherited attributes are absent) and its `_require_target` flag. -/
structure ToyClass where
  classDict : String → Option ClassAttr
  requireTarget : Bool

/-- The queried method value: its `__name__` and its identity. -/
structure MethodRef where
  name : String
  fnId : Nat
  deriving DecidableEq

/-- The `implements` classmethod.  A `partialmethod` object is never
identical to the queried function object, so the identity branch applies
only to a directly declared plain function. -/
def implements (cls : ToyClass) (method : MethodRef) (withTarget : Bool) : Bool :=
  match cls.classDict method.name with
  | some (ClassAttr.plain f) =>
      if f = method.fnId then withTarget == cls.requireTarget else false
  | some (ClassAttr.partialMethod f kws) =>
      (f == method.fnId) &&
        ((kws.contains ("proc") && !withTarget) || (withTarget == cls.requireTarget))
  | some (ClassAttr.other _) => false
  | none => false

/-- A class declaring `roll` as a `partialmethod` with a bound `proc`
keyword, on a toy class requiring a target. -/
def exClass : ToyClass :=
  { classDict := fun n =>
      if n = "roll" then some (ClassAttr.partialMethod 5 ["proc"]) else none,
    requireTarget := true }

/-- The function wrapped by `exClass`'s `roll` declaration. -/
def exMethod : MethodRef := { name := "roll", fnId := 5 }

/-! ## Demo script (`spherov2/test/BOLT_roll_test.py`)

```python
print("Testing Starting...")
print("Connecting to Bolt...")
toy = scanner.find_BOLT()

if toy is not None:
    print("Connected.")
    with SpheroEduAPI(toy) as bolt:
        for heading in [0, 90, 180, 270]:
            bolt.roll(heading, 80, 0.75)
```

The discovery facility and the `SpheroEduAPI` facade are external; the
script's observable behaviour is the trace of prints, facade session
open/close, and `roll` calls, as a function of the discovery result.  On the
no-toy path the script only prints, so it finishes normally (exit status 0);
`0.75` is exactly representable and appears as the rational `3/4`. -/

/-- The toy descriptor returned by `scanner.find_BOLT()` when a toy is
found. -/
structure ToyDesc where
  address : Nat
  deriving DecidableEq

/-- An observable action of the demo script, in program order. -/
inductive ScriptEvent where
  /-- A `print(msg)` call. -/
  | println (msg : String)
  /-- Entry into the `with SpheroEduAPI(toy)` block: the facade session
  opens. -/
  | openApi
  /-- A `bolt.roll(heading, speed, duration)` facade call. -/
  | roll (heading speed : Nat) (duration : ℚ)
  /-- Exit from the `with` block: the facade session (and the underlying
  toy session) is closed. -/
  | closeApi
  deriving DecidableEq

/-- The demo script as a function of the discovery result: the trace of its
observable actions. -/
def runScript (found : Option ToyDesc) : List ScriptEvent :=
  [ScriptEvent.println ("Testing Starting..."),
   ScriptEvent.println ("Connecting to Bolt...")] ++
  match found with
  | none => []
  | some _ =>
      ScriptEvent.println ("Connected.") :: ScriptEvent.openApi ::
        (([0, 90, 180, 270].map fun h => ScriptEvent.roll h 80 (3 / 4)) ++
          [ScriptEvent.closeApi])

/-! ## Concrete evaluation helpers -/

theorem chunks_replicate45 :
    chunks (List.replicate 45 (0 : Byte)) =
      [List.replicate 20 0, List.replicate 20 0, List.replicate 5 0] := by
  rw [chunks_cons_of_ne _ (by decide)]
  rw [show (List.replicate 45 (0 : Byte)).drop 20 = List.replicate 25 0 from by decide]
  rw [show (List.replicate 45 (0 : Byte)).take 20 = List.replicate 20 0 from by decide]
  rw [chunks_cons_of_ne _ (by decide)]
  rw [show (List.replicate 25 (0 : Byte)).drop 20 = List.replicate 5 0 from by decide]
  rw [show (List.replicate 25 (0 : Byte)).take 20 = List.replicate 20 0 from by decide]
  rw [chunks_cons_of_ne _ (by decide)]
  rw [show (List.replicate 5 (0 : Byte)).drop 20 = ([] : List Byte) from by decide]
  rw [show (List.replicate 5 (0 : Byte)).take 20 = List.replicate 5 0 from by decide]
  rw [chunks_nil]

theorem chunks_singleton : chunks [(7 : Byte)] = [[7]] := by
  rw [chunks_cons_of_ne _ (by decide)]
  rw [show ([(7 : Byte)]).drop 20 = [] from by decide, chunks_nil]
  rw [show ([(7 : Byte)]).take 20 = [7] from by decide]

/-! ## The claims -/

/-- C1: every payload taken from the outbound queue is written to the send
channel as its consecutive chunks of at most 20 bytes, in order, with no
chunk of a different payload interleaved (the write trace is the queue-order
concatenation of the per-payload chunk lists); a 45-byte payload yields
exactly three writes of sizes 20, 20 and 5, in that order. -/
theorem transmit_chunking (interval : ℚ) (ps : List (List Byte))
    (p c : List Byte) (hc : c ∈ chunks p) :
    writesOf (processQueue interval (ps.map some)) = (ps.map chunks).flatten
    ∧ c.length ≤ 20
    ∧ (chunks p).flatten = p
    ∧ (writesOf (processQueue interval [some (List.replicate 45 0)])).map List.length
        = [20, 20, 5] := by
  refine ⟨writesOf_processQueue interval ps, chunks_length_le p c hc, chunks_join p, ?_⟩
  show (writesOf (processQueue interval ([List.replicate 45 0].map some))).map List.length
      = [20, 20, 5]
  rw [writesOf_processQueue interval [List.replicate 45 0]]
  simp only [List.map_cons, List.map_nil, List.flatten_cons, List.flatten_nil,
    List.append_nil]
  rw [chunks_replicate45]
  decide

/-- Witness for `transmit_chunking`: the single chunk of the one-byte
payload `[7]` is at most 20 bytes long. -/
theorem transmit_chunking_witness : ([(7 : Byte)]).length ≤ 20 :=
  (transmit_chunking 0 [] [7] [7]
    (chunks_singleton ▸ List.mem_singleton.mpr rfl)).2.1

/-- C2: when one complete inbound packet is decoded, every future queued
under its id — not only the first — is fulfilled with that same packet, and
the queue under that id is drained empty. -/
theorem newPacket_broadcast (s : WaitState) (p : Packet) (fid : Nat)
    (hf : fid ∈ s.waiting p.pid) :
    (newPacket s p).results fid = some p ∧ (newPacket s p).waiting p.pid = [] := by
  constructor
  · show drainAll s.results (s.waiting p.pid) p fid = some p
    rw [drainAll_eq]
    simp [hf]
  · simp [newPacket]

/-- Witness for `newPacket_broadcast`: with futures 1 and 2 both queued
under key 3, a packet with id 3 fulfills the second waiter as well. -/
theorem newPacket_broadcast_witness :
    (newPacket (waitPacketRegister (waitPacketRegister initWait 3 1) 3 2)
        { pid := 3, built := [] }).results 2 = some { pid := 3, built := [] } :=
  (newPacket_broadcast (waitPacketRegister (waitPacketRegister initWait 3 1) 3 2)
    { pid := 3, built := [] } 2 (by decide)).1

/-- C3: entering a session whose adapter is already bound fails with the
already-open error; after a successful enter and a close, entering again
succeeds. -/
theorem session_open_close_reopen (s s1 : ToySession) (a a2 a3 : Nat)
    (h : enterSession s a = Except.ok s1) :
    enterSession s1 a2 = Except.error PyErr.alreadyOpen
    ∧ ∃ s2, exitSession s1 = Except.ok s2
        ∧ ∃ s3, enterSession s2 a3 = Except.ok s3 := by
  cases hs : s.adapter with
  | some x => simp [enterSession, hs] at h
  | none =>
      simp [enterSession, hs] at h
      subst h
      exact ⟨rfl, _, rfl, _, rfl⟩

/-- Witness for `session_open_close_reopen` at the freshly opened session. -/
theorem session_open_close_reopen_witness :
    enterSession openedSession 1 = Except.error PyErr.alreadyOpen :=
  (session_open_close_reopen initSession openedSession 0 1 2 rfl).1

/-- C4 counterexample: `_wait_packet` registers future 7 under key 3 and its
wait then times out; contrary to the claim, future 7 is still queued under
key 3 afterwards. -/
theorem timeout_leaves_future_queued :
    7 ∈ (waitPacketTimeout (waitPacketRegister initWait 3 7)).waiting 3 := by
  decide

/-- C4 (amended): a queued future is dequeued when fulfilled and a future
not queued under the packet's id keeps its slot untouched (so a future is
fulfilled at most once by the drain), but a wait that times out performs no
cleanup: the future it registered remains queued under its key until a
matching packet drains that queue. -/
theorem pending_future_lifecycle (s : WaitState) (p : Packet) (key fid : Nat)
    (h : fid ∉ s.waiting p.pid) :
    (newPacket s p).waiting p.pid = []
    ∧ (newPacket s p).results fid = s.results fid
    ∧ waitPacketTimeout (waitPacketRegister s key fid) = waitPacketRegister s key fid
    ∧ fid ∈ (waitPacketTimeout (waitPacketRegister s key fid)).waiting key := by
  refine ⟨by simp [newPacket], ?_, rfl, ?_⟩
  · show drainAll s.results (s.waiting p.pid) p fid = s.results fid
    rw [drainAll_eq]
    simp [h]
  · show fid ∈ (waitPacketRegister s key fid).waiting key
    simp [waitPacketRegister]

/-- Witness for `pending_future_lifecycle`: future 9, registered under key 4
by a wait that timed out, is still queued under key 4. -/
theorem pending_future_lifecycle_witness :
    9 ∈ (waitPacketTimeout (waitPacketRegister initWait 4 9)).waiting 4 :=
  (pending_future_lifecycle initWait { pid := 3, built := [] } 4 9 (by decide)).2.2.2

/-- C5: draining the outbound queue produces, for each payload in order, its
chunk writes followed by exactly one pacing sleep of the toy type's
`cmd_safe_interval`, with the next payload's writes only after that sleep;
the chunk writes of a payload contain no sleep, so the delay is applied per
payload, never per chunk. -/
theorem pacing_per_payload (interval : ℚ) (ps : List (List Byte)) (q : List Byte) :
    processQueue interval (ps.map some) =
      (ps.map fun p => writeChunks p ++ [TxEvent.sleep interval]).flatten
    ∧ sleepsOf (writeChunks q) = []
    ∧ sleepsOf (processQueue interval (ps.map some)) =
        List.replicate ps.length interval :=
  ⟨processQueue_eq_flatten interval ps, sleepsOf_writeChunks q,
    sleepsOf_processQueue interval ps⟩

/-- C6: `_execute` with no adapter bound fails with the not-connected error
and returns the state unchanged — in particular nothing is enqueued on the
outbound queue before the raise. -/
theorem execute_not_connected (s : ToySession) (p : Packet)
    (h : s.adapter = none) :
    executeEnqueue s p = (s, some PyErr.notConnected) := by
  simp [executeEnqueue, h]

/-- Witness for `execute_not_connected` on a never-opened session. -/
theorem execute_not_connected_witness :
    executeEnqueue initSession { pid := 0, built := [] } =
      (initSession, some PyErr.notConnected) :=
  execute_not_connected initSession { pid := 0, built := [] } rfl

/-- C7: a successful close replaces the outbound queue with a fresh empty
one and leaves the waiting and listener maps untouched; a subsequent reopen
leaves them untouched as well, so both persist across a close/reopen
cycle. -/
theorem exit_frame (s s' : ToySession) (h : exitSession s = Except.ok s') :
    s'.packetQueue = []
    ∧ s'.waiting = s.waiting
    ∧ s'.listeners = s.listeners
    ∧ ∀ a s'', enterSession s' a = Except.ok s'' →
        s''.waiting = s.waiting ∧ s''.listeners = s.listeners := by
  cases hs : s.adapter with
  | none => simp [exitSession, hs] at h
  | some x =>
      cases ht : s.thread with
      | none => simp [exitSession, hs, ht] at h
      | some b =>
          simp [exitSession, hs, ht] at h
          subst h
          refine ⟨rfl, rfl, rfl, ?_⟩
          intro a s'' h2
          simp [enterSession] at h2
          subst h2
          exact ⟨rfl, rfl⟩

/-- Witness for `exit_frame`: closing the opened session preserves the
waiting map. -/
theorem exit_frame_witness : closedSession.waiting = openedSession.waiting :=
  (exit_frame openedSession closedSession rfl).2.1

/-- C8 counterexample: closing a never-opened session, and closing an
already-closed session, both raise (an attribute access on the absent
adapter reference) instead of succeeding. -/
theorem close_closed_session_fails :
    exitSession initSession = Except.error PyErr.noneAttr
    ∧ exitSession closedSession = Except.error PyErr.noneAttr :=
  ⟨rfl, rfl⟩

/-- C8 (amended): close is not idempotent — whenever no adapter is bound
(session never opened, or already closed), `__exit__` fails on the `None`
adapter reference rather than succeeding; only a session with a bound
adapter closes successfully. -/
theorem exit_requires_open_adapter (s : ToySession) (h : s.adapter = none) :
    exitSession s = Except.error PyErr.noneAttr := by
  simp [exitSession, h]

/-- Witness for `exit_requires_open_adapter` on the initial session. -/
theorem exit_requires_open_adapter_witness :
    exitSession initSession = Except.error PyErr.noneAttr :=
  exit_requires_open_adapter initSession rfl

/-- C9 counterexample: `exClass` declares `roll` as a `partialmethod` with a
bound `proc` keyword and has `_require_target = True`; querying with
`with_target = False` returns `True` even though the flag does not match the
class's target requirement. -/
theorem implements_proc_counterexample :
    implements exClass exMethod false = true ∧ exClass.requireTarget = true := by
  exact ⟨by decide, rfl⟩

/-- C9 (amended): `implements` returns true exactly when the method is
declared directly on the queried class — as the attribute itself, or as the
wrapped function of a directly declared `partialmethod` — and either the
class's target requirement equals `with_target`, or the declaration is a
`partialmethod` with a bound `proc` keyword and `with_target` is false; for
a method absent from the class's own dict (inherited but not redeclared) it
returns false. -/
theorem implements_characterization (cls : ToyClass) (m : MethodRef) (wt : Bool) :
    (implements cls m wt = true ↔
      (cls.classDict m.name = some (ClassAttr.plain m.fnId) ∧ wt = cls.requireTarget)
      ∨ (∃ kws, cls.classDict m.name = some (ClassAttr.partialMethod m.fnId kws)
          ∧ (kws.contains ("proc") = true ∧ wt = false ∨ wt = cls.requireTarget)))
    ∧ (cls.classDict m.name = none → implements cls m wt = false) := by
  constructor
  · cases hd : cls.classDict m.name with
    | none => simp [implements, hd]
    | some attr =>
        cases attr with
        | plain f =>
            by_cases hf : f = m.fnId
            · subst hf
              simp [implements, hd]
            · simp [implements, hd, hf, Ne.symm hf]
        | partialMethod f kws =>
            by_cases hf : f = m.fnId
            · subst hf
              simp [implements, hd, Bool.and_eq_true, Bool.or_eq_true,
                Bool.not_eq_true']
            · simp [implements, hd, hf, Ne.symm hf]
        | other o => simp [implements, hd]
  · intro hd
    simp [implements, hd]

/-- Witness for `implements_characterization`: a method absent from the
class's own dict is not implemented. -/
theorem implements_characterization_witness :
    implements { classDict := fun _ => none, requireTarget := false }
      exMethod true = false :=
  (implements_characterization
    { classDict := fun _ => none, requireTarget := false } exMethod true).2 rfl

/-- C10: with no toy discovered the script only prints its two progress
lines and finishes normally, issuing no drive command; with a toy discovered
it prints the confirmation and issues exactly four sequential roll commands
at headings 0, 90, 180 and 270, each at speed 80 for duration 3/4, inside
the facade session, which closes after the last command. -/
theorem script_behavior (t : ToyDesc) :
    runScript none = [ScriptEvent.println ("Testing Starting..."),
                      ScriptEvent.println ("Connecting to Bolt...")]
    ∧ (∀ h s d, ScriptEvent.roll h s d ∉ runScript none)
    ∧ runScript (some t) =
        [ScriptEvent.println ("Testing Starting..."),
         ScriptEvent.println ("Connecting to Bolt..."),
         ScriptEvent.println ("Connected."),
         ScriptEvent.openApi,
         ScriptEvent.roll 0 80 (3 / 4),
         ScriptEvent.roll 90 80 (3 / 4),
         ScriptEvent.roll 180 80 (3 / 4),
         ScriptEvent.roll 270 80 (3 / 4),
         ScriptEvent.closeApi] := by
  refine ⟨rfl, ?_, rfl⟩
  intro h s d hm
  simp [runScript] at hm

/-- Witness for `script_behavior` at an arbitrary discovered toy. -/
theorem script_behavior_witness :
    runScript none = [ScriptEvent.println ("Testing Starting..."),
                      ScriptEvent.println ("Connecting to Bolt...")] :=
  (script_behavior { address := 0 }).1

end Spherov2
